import Mathlib

/-!
Shallow embedding of the Issue Tracker API (FastAPI + SQLAlchemy + SQLite).

Source layout:
  app/models.py          - Issue table, IssueStatus / IssuePriority enumerations
  app/database.py        - SQLite engine (DATABASE_URL = "sqlite:///./issues.db")
  app/routes/issues.py   - the five CRUD + list route handlers
  app/schemas.py         - imported by the routes but NOT part of the sources;
                           its payload shapes are modelled from the spec below.

Modelling conventions:
  * Timestamps are natural numbers; the database clock is passed explicitly
    as a `now` argument to every operation that can write a timestamp.
  * The store is the list of rows of the `issues` table in rowid order.
    SQLite returns rows of an unordered query in rowid order, and every
    insert appends the row with the largest id, so list order and id order
    coincide.
  * Id assignment follows SQLite rowid semantics for an INTEGER PRIMARY KEY
    without the AUTOINCREMENT keyword (which is what
    `Column(Integer, primary_key=True, autoincrement=True)` creates on
    SQLite): a new row gets one more than the largest rowid currently in
    the table, and 1 on an empty table.  In particular an id can be reused
    after the row holding the largest id is deleted.
  * `updated_at` carries `onupdate=func.now()`, which fires only when an
    actual UPDATE statement is emitted.  SQLAlchemy's unit of work compares
    attribute history by equality at flush time, so a `setattr` that stores
    a value equal to the current one produces no net change, and an object
    with no net change produces no UPDATE at `commit()`.  The update
    operations below therefore refresh `updated_at` exactly when the merged
    row differs from the stored row.
  * A route that raises HTTPException 404 is modelled as returning `none`;
    the store is untouched on that path because no new store is produced.
-/

namespace IssueTracker

/-- Status enumeration of app/models.py (`IssueStatus`): open, in_progress,
resolved, closed.  `open` is a Lean keyword, hence the trailing underscore. -/
inductive IssueStatus where
  | open_
  | in_progress
  | resolved
  | closed
deriving DecidableEq, Repr

/-- Priority enumeration of app/models.py (`IssuePriority`): low, medium,
high, critical. -/
inductive IssuePriority where
  | low
  | medium
  | high
  | critical
deriving DecidableEq, Repr

/-- Wire value of a status, as stored in the string enum of models.py. -/
def IssueStatus.ofString : String → Option IssueStatus
  | "open" => some .open_
  | "in_progress" => some .in_progress
  | "resolved" => some .resolved
  | "closed" => some .closed
  | _ => none

/-- Wire value of a priority, as stored in the string enum of models.py. -/
def IssuePriority.ofString : String → Option IssuePriority
  | "low" => some .low
  | "medium" => some .medium
  | "high" => some .high
  | "critical" => some .critical
  | _ => none

/-- One row of the `issues` table (models.py, class Issue).  `description`
and `assignee` are nullable columns, all others are NOT NULL. -/
structure Issue where
  id : Nat
  title : String
  description : Option String
  status : IssueStatus
  priority : IssuePriority
  reporter : String
  assignee : Option String
  created_at : Nat
  updated_at : Nat
deriving DecidableEq, Repr

/-- The persistent state: the rows of the `issues` table in rowid order. -/
structure Store where
  issues : List Issue
deriving DecidableEq, Repr

/-- Largest id currently present in the table (0 when empty). -/
def Store.maxId (s : Store) : Nat :=
  s.issues.foldr (fun i m => max i.id m) 0

/-- Rowid chosen by SQLite for the next insert: one more than the largest
rowid in the table (so 1 on an empty table).  See the module comment on
AUTOINCREMENT-less INTEGER PRIMARY KEY semantics. -/
def Store.nextRowId (s : Store) : Nat :=
  s.maxId + 1

/-- Modelled from the spec: app/schemas.py is imported by the routes but is
missing from the sources.  `IssueCreate` is the validated CreateRequest
payload: every field except id and the timestamps, with the enumeration
defaults already applied for an omitted status/priority. -/
structure IssueCreate where
  title : String
  description : Option String
  status : IssueStatus
  priority : IssuePriority
  reporter : String
  assignee : Option String
deriving DecidableEq, Repr

/-- Modelled from the spec: the raw (pre-validation) CreateRequest body.
Each field is `none` when absent from the JSON body; status and priority
arrive as wire strings still to be checked against the enumerations. -/
structure RawCreate where
  title : Option String := none
  description : Option String := none
  status : Option String := none
  priority : Option String := none
  reporter : Option String := none
  assignee : Option String := none
deriving DecidableEq, Repr

/-- Status field of a raw payload: absent means the Entity Model default
`open`; present means the wire string must be a member of the enumeration. -/
def parseStatusField : Option String → Option IssueStatus
  | none => some .open_
  | some v => IssueStatus.ofString v

/-- Priority field of a raw payload: absent means the Entity Model default
`medium`; present means the wire string must parse. -/
def parsePriorityField : Option String → Option IssuePriority
  | none => some .medium
  | some v => IssuePriority.ofString v

/-- Assignee field of a raw payload: optional, max length 100 per the spec. -/
def parseAssigneeField : Option String → Option (Option String)
  | none => some none
  | some a => if 100 < a.length then none else some (some a)

/-- Modelled from the spec: Pydantic validation of a CreateRequest
(app/schemas.py is missing from the sources).  `title` and `reporter` are
required; `title` is non-empty with max length 200, `reporter` max length
100, `assignee` optional with max length 100, `description` optional and
unbounded, `status`/`priority` must be enumeration members when present and
default to open/medium when absent.  `none` is a validation failure. -/
def validate_create (r : RawCreate) : Option IssueCreate :=
  match r.title with
  | none => none
  | some t =>
    if t = "" ∨ 200 < t.length then none
    else
      match r.reporter with
      | none => none
      | some rep =>
        if 100 < rep.length then none
        else
          match parseStatusField r.status with
          | none => none
          | some st =>
            match parsePriorityField r.priority with
            | none => none
            | some pr =>
              match parseAssigneeField r.assignee with
              | none => none
              | some asg =>
                some { title := t, description := r.description, status := st,
                       priority := pr, reporter := rep, assignee := asg }

/-- Embeds `create_issue` (routes/issues.py, POST /issues/): builds a row
from the validated payload, inserts it, and the store assigns id and both
timestamps (`server_default=func.now()`).  Returns the new store and the
refreshed row. -/
def create_issue (s : Store) (p : IssueCreate) (now : Nat) : Store × Issue :=
  let i : Issue :=
    { id := s.nextRowId, title := p.title, description := p.description,
      status := p.status, priority := p.priority, reporter := p.reporter,
      assignee := p.assignee, created_at := now, updated_at := now }
  ({ issues := s.issues ++ [i] }, i)

/-- The POST /issues/ boundary: Pydantic validates the raw body before the
handler runs, so an invalid payload never reaches `create_issue` and the
store is unchanged (`none` in the second component is the 4xx error). -/
def handle_create (s : Store) (r : RawCreate) (now : Nat) : Store × Option Issue :=
  match validate_create r with
  | none => (s, none)
  | some p =>
    let res := create_issue s p now
    (res.1, some res.2)

/-- Embeds the lookup `db.query(Issue).filter(Issue.id == issue_id).first()`
shared by the GET/PUT/PATCH/DELETE handlers, and the GET /issues/{id}
handler itself: the row, or `none` for the 404 path. -/
def get_issue (s : Store) (issue_id : Nat) : Option Issue :=
  s.issues.find? (fun i => i.id == issue_id)

/-- UPDATE of one row in place: rowids do not move, so the list order is
preserved. -/
def Store.replaceIssue (s : Store) (issue_id : Nat) (i2 : Issue) : Store :=
  { issues := s.issues.map (fun j => if j.id == issue_id then i2 else j) }

/-- Row resulting from the PUT handler's field loop
`for field, value in issue_update.model_dump().items(): setattr(...)`:
every payload field overwrites the column; id and the timestamps are not in
the payload and are untouched by the loop. -/
def apply_full (i : Issue) (p : IssueCreate) : Issue :=
  { i with title := p.title, description := p.description, status := p.status,
           priority := p.priority, reporter := p.reporter, assignee := p.assignee }

/-- Flush of a dirtied row at `db.commit()`: an UPDATE is emitted only when
some column has a net change, and only then does `onupdate=func.now()`
refresh `updated_at` (see the module comment). -/
def flush_row (original merged : Issue) (now : Nat) : Issue :=
  if merged = original then original else { merged with updated_at := now }

/-- Embeds `update_issue` (routes/issues.py, PUT /issues/{id}): 404 when the
id does not resolve, otherwise overwrite every payload field and commit. -/
def update_issue (s : Store) (issue_id : Nat) (p : IssueCreate) (now : Nat) :
    Option (Store × Issue) :=
  match get_issue s issue_id with
  | none => none
  | some i =>
    let fin := flush_row i (apply_full i p) now
    some (s.replaceIssue issue_id fin, fin)

/-- Modelled from the spec: app/schemas.py's `IssueUpdate`, the partial
UpdateRequest.  Every field is optional, and a field explicitly set to null
is distinguished from a field omitted entirely (`model_dump` with
`exclude_unset=True` drops only the omitted ones), hence the nested
`Option` on the nullable columns. -/
structure IssueUpdate where
  title : Option String := none
  description : Option (Option String) := none
  status : Option IssueStatus := none
  priority : Option IssuePriority := none
  reporter : Option String := none
  assignee : Option (Option String) := none
deriving DecidableEq, Repr

/-- The PATCH payload that provides zero fields. -/
def IssueUpdate.empty : IssueUpdate := {}

/-- Row resulting from the PATCH handler's field loop over
`issue_update.model_dump(exclude_unset=True)`: only fields explicitly
provided in the body overwrite the column. -/
def apply_patch (i : Issue) (u : IssueUpdate) : Issue :=
  { i with
    title := u.title.getD i.title,
    description := u.description.getD i.description,
    status := u.status.getD i.status,
    priority := u.priority.getD i.priority,
    reporter := u.reporter.getD i.reporter,
    assignee := u.assignee.getD i.assignee }

/-- Embeds `partial_update_issue` (routes/issues.py, PATCH /issues/{id}):
404 when the id does not resolve, otherwise merge the provided fields and
commit (the flush refreshes `updated_at` only on a net change). -/
def patch_issue (s : Store) (issue_id : Nat) (u : IssueUpdate) (now : Nat) :
    Option (Store × Issue) :=
  match get_issue s issue_id with
  | none => none
  | some i =>
    let fin := flush_row i (apply_patch i u) now
    some (s.replaceIssue issue_id fin, fin)

/-- Embeds `delete_issue` (routes/issues.py, DELETE /issues/{id}): 404 when
the id does not resolve, otherwise hard-delete the row. -/
def delete_issue (s : Store) (issue_id : Nat) : Option Store :=
  match get_issue s issue_id with
  | none => none
  | some _ => some { issues := s.issues.filter (fun i => i.id != issue_id) }

/-- Predicate built by the three `if <param>: query = query.filter(...)`
guards of `list_issues`.  Python truthiness makes the guard skip the filter
both when the query parameter is absent (`None`) and when `assignee` is the
empty string; the status and priority enums are subclasses of `str` whose
members are all non-empty, so their guards fire exactly when present. -/
def matches_filters (st : Option IssueStatus) (pr : Option IssuePriority)
    (asg : Option String) (i : Issue) : Bool :=
  (match st with
   | none => true
   | some v => i.status == v) &&
  (match pr with
   | none => true
   | some v => i.priority == v) &&
  (match asg with
   | none => true
   | some a => if a == "" then true else i.assignee == some a)

/-- Response shape of GET /issues/ (IssueListResponse of the schemas,
visible in the handler: total, count, issues). -/
structure IssueListResponse where
  total : Nat
  count : Nat
  issues : List Issue
deriving DecidableEq, Repr

/-- Embeds `list_issues` (routes/issues.py, GET /issues/): filter, then
`total = query.count()` before pagination, then the page
`query.offset(skip).limit(limit).all()` and `count = len(issues)`. -/
def list_issues (s : Store) (st : Option IssueStatus) (pr : Option IssuePriority)
    (asg : Option String) (skip : Nat) (limit : Nat) : IssueListResponse :=
  let filtered := s.issues.filter (matches_filters st pr asg)
  let page := (filtered.drop skip).take limit
  { total := filtered.length, count := page.length, issues := page }

/-- Concrete row used to evaluate the theorems on explicit inputs. -/
def demoIssue : Issue :=
  { id := 1, title := "a", description := none, status := .open_,
    priority := .low, reporter := "r", assignee := none,
    created_at := 0, updated_at := 0 }

/-- One-row store used to evaluate the theorems on explicit inputs. -/
def demoStore : Store := { issues := [demoIssue] }

/-- Concrete validated create payload used on explicit inputs. -/
def demoCreate : IssueCreate :=
  { title := "a", description := none, status := .open_,
    priority := .medium, reporter := "r", assignee := none }

/-- Store holding five rows, all matching the empty filter set. -/
def fiveStore : Store :=
  { issues := (List.range 5).map (fun n =>
      { id := n + 1, title := "t", description := none, status := .open_,
        priority := .medium, reporter := "r", assignee := none,
        created_at := 0, updated_at := 0 }) }

section Helpers

/-- Every id in the table is bounded by `Store.maxId`. -/
theorem id_le_foldr_max (l : List Issue) (i : Issue) (h : i ∈ l) :
    i.id ≤ l.foldr (fun j m => max j.id m) 0 := by
  induction l with
  | nil => simp at h
  | cons a l ih =>
    rcases List.mem_cons.mp h with h | h
    · subst h
      exact le_max_left _ _
    · exact le_trans (ih h) (le_max_right _ _)

/-- An UPDATE of the row that a primary-key lookup found makes the next
lookup of the same key return the new row (rows keep their position). -/
theorem find?_map_update (l : List Issue) (k : Nat) (i i2 : Issue)
    (hid : i2.id = k) (h : l.find? (fun j => j.id == k) = some i) :
    (l.map (fun j => if j.id == k then i2 else j)).find? (fun j => j.id == k)
      = some i2 := by
  induction l with
  | nil => simp at h
  | cons a l ih =>
    by_cases ha : a.id = k
    · simp [List.map_cons, ha, List.find?_cons, hid]
    · rw [List.find?_cons_of_neg _ (by simp [ha])] at h
      rw [List.map_cons, if_neg (by simp [ha]),
        List.find?_cons_of_neg _ (by simp [ha])]
      exact ih h

/-- Store-level reading of `find?_map_update`. -/
theorem get_issue_replace (s : Store) (k : Nat) (i i2 : Issue)
    (hid : i2.id = k) (h : get_issue s k = some i) :
    get_issue (s.replaceIssue k i2) k = some i2 :=
  find?_map_update s.issues k i i2 hid h

/-- A successful primary-key lookup returns a row carrying the looked-up
key. -/
theorem get_issue_id (s : Store) (k : Nat) (i : Issue)
    (h : get_issue s k = some i) : i.id = k := by
  have h2 : s.issues.find? (fun j => j.id == k) = some i := h
  have hp := List.find?_some h2
  simpa using hp

end Helpers

/-- C10: a List call whose assignee query parameter is the empty string
behaves exactly as if the assignee filter were absent, because the guard
`if assignee:` in `list_issues` is falsy on the empty string. -/
theorem list_empty_assignee_ignored (s : Store) (st : Option IssueStatus)
    (pr : Option IssuePriority) (skip limit : Nat) :
    list_issues s st pr (some "") skip limit
      = list_issues s st pr none skip limit := by
  unfold list_issues
  have hf : s.issues.filter (matches_filters st pr (some ""))
      = s.issues.filter (matches_filters st pr none) := by
    apply List.filter_congr
    intro i _
    simp [matches_filters]
  rw [hf]

/-- C5 counterexample: ids returned by Create can repeat across Deletes.
The first Create on an empty store returns id 1; deleting that row empties
the table; the next Create returns id 1 again, an id already returned by a
previous Create — SQLite reassigns max(rowid)+1, it keeps no high-water
mark for an INTEGER PRIMARY KEY without AUTOINCREMENT. -/
theorem create_reuses_deleted_id :
    (create_issue { issues := [] } demoCreate 0).2.id = 1 ∧
    delete_issue (create_issue { issues := [] } demoCreate 0).1 1
      = some { issues := [] } ∧
    (create_issue { issues := [] } demoCreate 1).2.id = 1 := by
  refine ⟨rfl, ?_, rfl⟩
  decide

/-- C5 amended: the id returned by Create is strictly greater than the id of
every row currently in the store, hence unique among live issues and
strictly increasing as long as no Delete intervenes; after deleting the
row with the largest id, Create may reuse that id. -/
theorem create_id_greater_than_stored (s : Store) (p : IssueCreate)
    (now : Nat) (i : Issue) (hmem : i ∈ s.issues) :
    i.id < (create_issue s p now).2.id := by
  have hle : i.id ≤ s.maxId := id_le_foldr_max s.issues i hmem
  have : (create_issue s p now).2.id = s.maxId + 1 := rfl
  omega

/-- C5 amended witness: on the one-row store the fresh id exceeds the stored
id 1. -/
theorem create_id_greater_than_stored_witness :
    demoIssue.id < (create_issue demoStore demoCreate 5).2.id :=
  create_id_greater_than_stored demoStore demoCreate 5 demoIssue
    (by simp [demoStore])

/-- C7: for an id matching no stored row, Get, FullUpdate, PartialUpdate and
Delete all take the 404 path (`none`), never a default record; none of them
produces a new store, so the failed request leaves the store unchanged. -/
theorem missing_id_not_found (s : Store) (j : Nat) (p : IssueCreate)
    (u : IssueUpdate) (now : Nat) (hmiss : ∀ i ∈ s.issues, i.id ≠ j) :
    get_issue s j = none ∧ update_issue s j p now = none ∧
    patch_issue s j u now = none ∧ delete_issue s j = none := by
  have hg : get_issue s j = none := by
    apply List.find?_eq_none.mpr
    intro i hi
    simp [hmiss i hi]
  refine ⟨hg, ?_, ?_, ?_⟩ <;>
    simp [update_issue, patch_issue, delete_issue, hg]

/-- C7 witness: id 999999 on the one-row store misses in all four
operations. -/
theorem missing_id_not_found_witness :
    get_issue demoStore 999999 = none ∧
    update_issue demoStore 999999 demoCreate 3 = none ∧
    patch_issue demoStore 999999 IssueUpdate.empty 3 = none ∧
    delete_issue demoStore 999999 = none :=
  missing_id_not_found demoStore 999999 demoCreate IssueUpdate.empty 3
    (by decide)

/-- C1: PartialUpdate with a body providing only `status` changes only
`status` and `updated_at` on the stored row; title, description, reporter,
assignee, priority, created_at and id keep their prior values, and
`updated_at` strictly increases when the database clock has advanced. -/
theorem patch_changes_only_provided_fields (s : Store) (issue_id : Nat)
    (i : Issue) (st : IssueStatus) (now : Nat)
    (hfind : get_issue s issue_id = some i) (hst : i.status ≠ st)
    (hnow : i.updated_at < now) :
    ∃ s2 i2, patch_issue s issue_id { status := some st } now = some (s2, i2) ∧
      i2.status = st ∧ i2.updated_at = now ∧ i.updated_at < i2.updated_at ∧
      i2.title = i.title ∧ i2.description = i.description ∧
      i2.reporter = i.reporter ∧ i2.assignee = i.assignee ∧
      i2.priority = i.priority ∧ i2.created_at = i.created_at ∧
      i2.id = i.id ∧ get_issue s2 issue_id = some i2 := by
  have hid : i.id = issue_id := get_issue_id s issue_id i hfind
  have hmerge : apply_patch i { status := some st } = { i with status := st } :=
    rfl
  have hne : ({ i with status := st } : Issue) ≠ i := by
    intro h
    have hs := congrArg Issue.status h
    simp at hs
    exact hst hs.symm
  have hfin : flush_row i (apply_patch i { status := some st }) now
      = { i with status := st, updated_at := now } := by
    rw [hmerge]
    unfold flush_row
    rw [if_neg hne]
  have hrun : patch_issue s issue_id { status := some st } now
      = some (s.replaceIssue issue_id { i with status := st, updated_at := now },
              { i with status := st, updated_at := now }) := by
    unfold patch_issue
    rw [hfind]
    simp only [hfin]
  exact ⟨_, _, hrun, rfl, rfl, hnow, rfl, rfl, rfl, rfl, rfl, rfl, rfl,
    get_issue_replace s issue_id i _ hid hfind⟩

/-- C1 witness: resolving the open one-row store issue at a later clock
changes exactly status and updated_at. -/
theorem patch_changes_only_provided_fields_witness :
    ∃ s2 i2,
      patch_issue demoStore 1 { status := some .resolved } 10 = some (s2, i2) ∧
      i2.status = .resolved ∧ i2.updated_at = 10 ∧
      demoIssue.updated_at < i2.updated_at ∧
      i2.title = demoIssue.title ∧ i2.description = demoIssue.description ∧
      i2.reporter = demoIssue.reporter ∧ i2.assignee = demoIssue.assignee ∧
      i2.priority = demoIssue.priority ∧ i2.created_at = demoIssue.created_at ∧
      i2.id = demoIssue.id ∧ get_issue s2 1 = some i2 :=
  patch_changes_only_provided_fields demoStore 1 demoIssue .resolved 10 rfl
    (by decide) (by decide)

/-- C2 counterexample: a PartialUpdate whose payload provides zero fields
does NOT refresh `updated_at`.  The handler's field loop runs zero times, no
attribute gains a net change, `db.commit()` emits no UPDATE, so
`onupdate=func.now()` never fires: at clock 10 the row keeps
`updated_at = 0`, where the claim requires 10. -/
theorem patch_empty_payload_no_refresh :
    patch_issue demoStore 1 IssueUpdate.empty 10 = some (demoStore, demoIssue) ∧
    demoIssue.updated_at = 0 ∧ demoIssue.updated_at ≠ 10 := by
  refine ⟨by decide, rfl, by decide⟩

/-- C2 amended: PartialUpdate still succeeds on any payload whose id
resolves, but `updated_at` is refreshed exactly when the merged row differs
from the stored row; in particular a zero-field payload succeeds and leaves
the stored issue, `updated_at` included, unchanged, and so does a payload
whose provided values all equal the current ones. -/
theorem patch_touch_semantics (s : Store) (issue_id : Nat) (i : Issue)
    (u : IssueUpdate) (now : Nat) (hfind : get_issue s issue_id = some i) :
    ∃ s2 i2, patch_issue s issue_id u now = some (s2, i2) ∧
      get_issue s2 issue_id = some i2 ∧
      i2.updated_at = (if apply_patch i u = i then i.updated_at else now) ∧
      (u = IssueUpdate.empty → i2 = i) := by
  have hid : i.id = issue_id := get_issue_id s issue_id i hfind
  by_cases h : apply_patch i u = i
  · have hfin : flush_row i (apply_patch i u) now = i := by
      unfold flush_row
      rw [if_pos h]
    have hrun : patch_issue s issue_id u now
        = some (s.replaceIssue issue_id i, i) := by
      unfold patch_issue
      rw [hfind]
      simp only [hfin]
    exact ⟨_, _, hrun, get_issue_replace s issue_id i i hid hfind,
      by rw [if_pos h], fun _ => rfl⟩
  · have hfin : flush_row i (apply_patch i u) now
        = { apply_patch i u with updated_at := now } := by
      unfold flush_row
      rw [if_neg h]
    have hrun : patch_issue s issue_id u now
        = some (s.replaceIssue issue_id { apply_patch i u with updated_at := now },
                { apply_patch i u with updated_at := now }) := by
      unfold patch_issue
      rw [hfind]
      simp only [hfin]
    refine ⟨_, _, hrun, get_issue_replace s issue_id i _ hid hfind,
      by rw [if_neg h], fun he => ?_⟩
    exact absurd (by subst he; rfl) h

/-- C2 amended witness: the empty patch on the one-row store at clock 10
keeps the stored row unchanged. -/
theorem patch_touch_semantics_witness :
    ∃ s2 i2, patch_issue demoStore 1 IssueUpdate.empty 10 = some (s2, i2) ∧
      get_issue s2 1 = some i2 ∧
      i2.updated_at = (if apply_patch demoIssue IssueUpdate.empty = demoIssue
        then demoIssue.updated_at else 10) ∧
      (IssueUpdate.empty = IssueUpdate.empty → i2 = demoIssue) :=
  patch_touch_semantics demoStore 1 demoIssue IssueUpdate.empty 10 rfl

/-- C3: FullUpdate overwrites every mutable field with the payload value
whether or not it differs, never takes id or created_at from the payload
(they keep their stored values), and signals NotFound for an id that does
not resolve. -/
theorem put_replaces_every_mutable_field (s : Store) (issue_id j : Nat)
    (p : IssueCreate) (now : Nat) (i : Issue)
    (hfind : get_issue s issue_id = some i) (hmiss : get_issue s j = none) :
    (∃ s2 i2, update_issue s issue_id p now = some (s2, i2) ∧
      i2.title = p.title ∧ i2.description = p.description ∧
      i2.status = p.status ∧ i2.priority = p.priority ∧
      i2.reporter = p.reporter ∧ i2.assignee = p.assignee ∧
      i2.id = i.id ∧ i2.created_at = i.created_at ∧
      get_issue s2 issue_id = some i2) ∧
    update_issue s j p now = none := by
  have hid : i.id = issue_id := get_issue_id s issue_id i hfind
  constructor
  · by_cases h : apply_full i p = i
    · have hfin : flush_row i (apply_full i p) now = i := by
        unfold flush_row
        rw [if_pos h]
      have hrun : update_issue s issue_id p now
          = some (s.replaceIssue issue_id i, i) := by
        unfold update_issue
        rw [hfind]
        simp only [hfin]
      exact ⟨_, _, hrun, (congrArg Issue.title h).symm,
        (congrArg Issue.description h).symm, (congrArg Issue.status h).symm,
        (congrArg Issue.priority h).symm, (congrArg Issue.reporter h).symm,
        (congrArg Issue.assignee h).symm, rfl, rfl,
        get_issue_replace s issue_id i i hid hfind⟩
    · have hfin : flush_row i (apply_full i p) now
          = { apply_full i p with updated_at := now } := by
        unfold flush_row
        rw [if_neg h]
      have hrun : update_issue s issue_id p now
          = some (s.replaceIssue issue_id { apply_full i p with updated_at := now },
                  { apply_full i p with updated_at := now }) := by
        unfold update_issue
        rw [hfind]
        simp only [hfin]
      exact ⟨_, _, hrun, rfl, rfl, rfl, rfl, rfl, rfl, rfl, rfl,
        get_issue_replace s issue_id i _ hid hfind⟩
  · simp [update_issue, hmiss]

/-- C3 witness: a full update of the one-row store issue at clock 10,
together with the miss on id 999999. -/
theorem put_replaces_every_mutable_field_witness :
    (∃ s2 i2, update_issue demoStore 1 demoCreate 10 = some (s2, i2) ∧
      i2.title = demoCreate.title ∧ i2.description = demoCreate.description ∧
      i2.status = demoCreate.status ∧ i2.priority = demoCreate.priority ∧
      i2.reporter = demoCreate.reporter ∧ i2.assignee = demoCreate.assignee ∧
      i2.id = demoIssue.id ∧ i2.created_at = demoIssue.created_at ∧
      get_issue s2 1 = some i2) ∧
    update_issue demoStore 999999 demoCreate 10 = none :=
  put_replaces_every_mutable_field demoStore 1 999999 demoCreate 10 demoIssue
    rfl (by decide)

/-- C4: List reports `total` as the number of records matching the filters
ignoring pagination, `issues` as the page `drop skip, take limit` of the
matching records, and `count` as the size of that page; on 5 matching
records, limit 2 with skip 0 gives count 2 and total 5, and limit 2 with
skip 4 gives count 1. -/
theorem list_pagination_counts (s : Store) (st : Option IssueStatus)
    (pr : Option IssuePriority) (asg : Option String) (skip limit : Nat)
    (h5 : (s.issues.filter (matches_filters st pr asg)).length = 5) :
    (list_issues s st pr asg skip limit).total
        = (s.issues.filter (matches_filters st pr asg)).length ∧
    (list_issues s st pr asg skip limit).issues
        = ((s.issues.filter (matches_filters st pr asg)).drop skip).take limit ∧
    (list_issues s st pr asg skip limit).count
        = (list_issues s st pr asg skip limit).issues.length ∧
    (list_issues s st pr asg 0 2).count = 2 ∧
    (list_issues s st pr asg 0 2).total = 5 ∧
    (list_issues s st pr asg 4 2).count = 1 := by
  refine ⟨rfl, rfl, rfl, ?_, ?_, ?_⟩
  · show (((s.issues.filter (matches_filters st pr asg)).drop 0).take 2).length = 2
    rw [List.drop_zero, List.length_take, h5]
    decide
  · exact h5
  · show (((s.issues.filter (matches_filters st pr asg)).drop 4).take 2).length = 1
    rw [List.length_take, List.length_drop, h5]
    decide

/-- C4 witness: the five-row store with no filters, page skip 3 limit 9. -/
theorem list_pagination_counts_witness :
    (list_issues fiveStore none none none 3 9).total
        = (fiveStore.issues.filter (matches_filters none none none)).length ∧
    (list_issues fiveStore none none none 3 9).issues
        = ((fiveStore.issues.filter (matches_filters none none none)).drop 3).take 9 ∧
    (list_issues fiveStore none none none 3 9).count
        = (list_issues fiveStore none none none 3 9).issues.length ∧
    (list_issues fiveStore none none none 0 2).count = 2 ∧
    (list_issues fiveStore none none none 0 2).total = 5 ∧
    (list_issues fiveStore none none none 4 2).count = 1 :=
  list_pagination_counts fiveStore none none none 3 9 (by decide)

/-- C6: a Create payload with title or reporter missing, title empty, title
longer than 200, reporter longer than 100, or a status/priority value
outside its enumeration, is rejected by validation before the handler runs:
the response carries no issue, the store is returned unchanged, and List
observes the same total as before. -/
theorem create_invalid_rejected (s : Store) (now : Nat) (r : RawCreate)
    (hbad :
      r.title = none ∨
      (∃ t, r.title = some t ∧ (t = "" ∨ 200 < t.length)) ∨
      r.reporter = none ∨
      (∃ rep, r.reporter = some rep ∧ 100 < rep.length) ∨
      (∃ v, r.status = some v ∧ IssueStatus.ofString v = none) ∨
      (∃ v, r.priority = some v ∧ IssuePriority.ofString v = none)) :
    handle_create s r now = (s, none) ∧
    (list_issues (handle_create s r now).1 none none none 0 100).total
      = (list_issues s none none none 0 100).total := by
  have hval : validate_create r = none := by
    unfold validate_create
    rcases hbad with h | ⟨t, ht, hb⟩ | h | ⟨rep, hrep, hb⟩ | ⟨v, hv, hb⟩ |
      ⟨v, hv, hb⟩
    · rw [h]
    · rw [ht]
      simp only []
      rw [if_pos hb]
    · cases htitle : r.title with
      | none => rfl
      | some t =>
        simp only []
        split
        · rfl
        · rw [h]
    · cases htitle : r.title with
      | none => rfl
      | some t =>
        simp only []
        split
        · rfl
        · rw [hrep]
          simp only []
          rw [if_pos hb]
    · cases htitle : r.title with
      | none => rfl
      | some t =>
        simp only []
        split
        · rfl
        · cases hrep2 : r.reporter with
          | none => rfl
          | some rep =>
            simp only []
            split
            · rfl
            · rw [hv]
              simp [parseStatusField, hb]
    · cases htitle : r.title with
      | none => rfl
      | some t =>
        simp only []
        split
        · rfl
        · cases hrep2 : r.reporter with
          | none => rfl
          | some rep =>
            simp only []
            split
            · rfl
            · cases hst2 : parseStatusField r.status with
              | none => rfl
              | some stv =>
                rw [hv]
                simp [parsePriorityField, hb]
  constructor
  · simp [handle_create, hval]
  · simp [handle_create, hval]

/-- C6 witness: the payload whose title is the empty string (and whose
reporter is also missing) is rejected and List's total is unchanged on the
one-row store. -/
theorem create_invalid_rejected_witness :
    handle_create demoStore { title := some "" } 7 = (demoStore, none) ∧
    (list_issues (handle_create demoStore { title := some "" } 7).1
        none none none 0 100).total
      = (list_issues demoStore none none none 0 100).total :=
  create_invalid_rejected demoStore 7 { title := some "" }
    (Or.inr (Or.inl ⟨"", rfl, Or.inl rfl⟩))

/-- C8: a valid Create payload that omits status and priority yields an
issue created with the Entity Model defaults, status open and priority
medium. -/
theorem create_defaults_applied (s : Store) (now : Nat) (r : RawCreate)
    (t rep : String) (ht : r.title = some t) (ht1 : t ≠ "")
    (ht2 : t.length ≤ 200) (hr : r.reporter = some rep)
    (hr1 : rep.length ≤ 100) (hst : r.status = none) (hpr : r.priority = none)
    (ha : r.assignee = none) :
    ∃ s2 i, handle_create s r now = (s2, some i) ∧
      i.status = IssueStatus.open_ ∧ i.priority = IssuePriority.medium := by
  have hval : validate_create r
      = some { title := t, description := r.description, status := .open_,
               priority := .medium, reporter := rep, assignee := none } := by
    unfold validate_create
    rw [ht]
    simp only []
    rw [if_neg (not_or.mpr ⟨ht1, not_lt.mpr ht2⟩), hr]
    simp only []
    rw [if_neg (not_lt.mpr hr1), hst, hpr, ha]
    rfl
  have hrun : handle_create s r now
      = ((create_issue s
           { title := t, description := r.description, status := .open_,
             priority := .medium, reporter := rep, assignee := none } now).1,
         some (create_issue s
           { title := t, description := r.description, status := .open_,
             priority := .medium, reporter := rep, assignee := none } now).2) := by
    simp [handle_create, hval]
  exact ⟨_, _, hrun, rfl, rfl⟩

/-- C8 witness: creating with only title and reporter supplied yields the
defaults open and medium. -/
theorem create_defaults_applied_witness :
    ∃ s2 i,
      handle_create demoStore { title := some "a", reporter := some "r" } 4
        = (s2, some i) ∧
      i.status = IssueStatus.open_ ∧ i.priority = IssuePriority.medium :=
  create_defaults_applied demoStore 4
    { title := some "a", reporter := some "r" } "a" "r" rfl (by decide)
    (by decide) rfl (by decide) rfl rfl rfl

/-- C9: with no assignee filter, skip 0 and the default limit 100, List
returns exactly the stored issues satisfying the conjunction of the
provided status and priority predicates; in particular filtering on status
open and priority high returns exactly the issues satisfying both. -/
theorem list_filters_conjunction (s : Store) (st : Option IssueStatus)
    (pr : Option IssuePriority) (hlen : s.issues.length ≤ 100) :
    (list_issues s st pr none 0 100).issues
        = s.issues.filter (fun i =>
            (st.all fun v => i.status == v) &&
            (pr.all fun v => i.priority == v)) ∧
    (list_issues s (some .open_) (some .high) none 0 100).issues
        = s.issues.filter (fun i =>
            i.status == IssueStatus.open_ &&
            i.priority == IssuePriority.high) := by
  have key : ∀ st2 pr2, (list_issues s st2 pr2 none 0 100).issues
      = s.issues.filter (matches_filters st2 pr2 none) := by
    intro st2 pr2
    show ((s.issues.filter (matches_filters st2 pr2 none)).drop 0).take 100
        = s.issues.filter (matches_filters st2 pr2 none)
    rw [List.drop_zero]
    exact List.take_of_length_le (le_trans (List.length_filter_le _ _) hlen)
  constructor
  · rw [key st pr]
    apply List.filter_congr
    intro i _
    cases st <;> cases pr <;> simp [matches_filters, Option.all]
  · rw [key (some .open_) (some .high)]
    apply List.filter_congr
    intro i _
    simp [matches_filters]

/-- C9 witness: the open/high filter pair evaluated on the one-row store. -/
theorem list_filters_conjunction_witness :
    (list_issues demoStore (some .open_) (some .high) none 0 100).issues
        = demoStore.issues.filter (fun i =>
            ((some IssueStatus.open_).all fun v => i.status == v) &&
            ((some IssuePriority.high).all fun v => i.priority == v)) ∧
    (list_issues demoStore (some .open_) (some .high) none 0 100).issues
        = demoStore.issues.filter (fun i =>
            i.status == IssueStatus.open_ &&
            i.priority == IssuePriority.high) :=
  list_filters_conjunction demoStore (some .open_) (some .high) (by decide)

end IssueTracker
